import Mathlib

/-!
Shallow embedding of the payment-processing service
(`app/routers/payments.py`, `app/models/payment.py`, `app/core/security.py`,
`app/services/chapa.py`, `app/utils/retry.py`, `app/dependencies/auth.py`,
`app/schemas/payment.py`, `app/config.py`).

Conventions of the embedding:
* UUIDs are `Nat`; monetary amounts are `ℚ`; timestamps are `Int`.
* The relational store is a `List Payment`; SQLAlchemy session operations
  become pure list operations threaded explicitly.
* Fallible Python code returns `Option`/sum-typed results; raising an
  exception is an explicit result constructor.
* Each HTTP handler returns an "effects" record carrying its HTTP-level
  result, the store after the call, and counters for the outbound calls it
  performed (gateway initialize/verify, listing approval, notification), so
  that frame conditions ("no gateway call", "no store write") are statable.
-/

/-- `PaymentStatus` from `app/models/payment.py`: `PENDING`, `SUCCESS`,
`FAILED`. -/
inductive PaymentStatus where
  | PENDING
  | SUCCESS
  | FAILED
deriving DecidableEq

/-- Modelled from the spec: the symmetric authenticated cipher (Fernet, from
the external `cryptography` library used by `app/core/security.py`, not part
of `src/`). Spec §4.5: encryption is symmetric and authenticated
(tamper-evident); decryption fails when the input was not produced by
`encrypt` under the current key. A ciphertext is modelled symbolically as
the pair of the key it was produced under and the protected plaintext. -/
structure Ciphertext where
  key : Nat
  plain : String
deriving DecidableEq

/-- `encrypt_data` from `app/core/security.py` (line 15), with the Fernet
primitive modelled symbolically (see `Ciphertext`). -/
def encrypt_data (key : Nat) (data : String) : Ciphertext :=
  ⟨key, data⟩

/-- `decrypt_data` from `app/core/security.py` (line 19): returns the
plaintext, or `none` when the library raises `InvalidToken` (the function
re-raises it), i.e. when the ciphertext was not produced under `key`. -/
def decrypt_data (key : Nat) (c : Ciphertext) : Option String :=
  if c.key = key then some c.plain else none

/-- The `Payment` row from `app/models/payment.py` (lines 19-30). -/
structure Payment where
  id : Nat
  request_id : Nat
  property_id : Nat
  user_id : Nat
  amount : ℚ
  status : PaymentStatus
  chapa_tx_ref : Ciphertext
  created_at : Int
  updated_at : Int
deriving DecidableEq

/-- The decrypt-and-scan loop shared by `chapa_webhook` (payments.py lines
408-416) and `chapa_return` (payments.py lines 312-319): walk the candidate
list, decrypt each record's `chapa_tx_ref`, return the first record whose
plaintext equals `ref`. A record whose ciphertext fails to decrypt
(`except ...: continue` in the source) is skipped, not fatal. -/
def findByRef (key : Nat) (ref : String) (ps : List Payment) : Option Payment :=
  ps.find? (fun p => decrypt_data key p.chapa_tx_ref = some ref)

/-- Persisting a status change on one ORM row (`found_payment.status = ...;
found_payment.updated_at = datetime.now(); db.add(...); db.commit()`). -/
def updateStatus (store : List Payment) (pid : Nat) (st : PaymentStatus)
    (now : Int) : List Payment :=
  store.map (fun q =>
    if q.id = pid then { q with status := st, updated_at := now } else q)

/-- The `data` object of a parsed webhook body (payments.py lines 390-392):
`tx_ref` and `status` extracted with `.get`, hence optional. -/
structure WebhookPayloadData where
  tx_ref : Option String
  status : Option String

/-- An inbound webhook request: the `X-Chapa-Signature` header (optional),
the raw body bytes, and the result of JSON-parsing the body (`none` when
`request.json()` raises). -/
structure WebhookRequest where
  x_chapa_signature : Option String
  rawBody : String
  parsedJson : Option WebhookPayloadData

/-- Outcome of `chapa_service.verify_payment` as observed by a handler:
either a response with its top-level `status` and `data.status` fields, or
an exception. -/
inductive VerifyOutcome where
  | resp (status : String) (dataStatus : Option String)
  | raised

/-- HTTP-level result of the webhook handler. -/
inductive WebhookResult where
  | unauthorized (detail : String)
  | badRequest (detail : String)
  | ok (message : String)
deriving DecidableEq

/-- Effects of one `chapa_webhook` call. `storeQueried` records whether the
handler reached the payment-store scan (payments.py line 404). -/
structure WebhookEffects where
  result : WebhookResult
  store : List Payment
  storeQueried : Bool
  verifyCalls : Nat
  approvalCalls : Nat
  notifications : Nat
deriving DecidableEq

/-- `ChapaService.verify_webhook_signature` from `app/services/chapa.py`
(lines 75-96): with an empty webhook secret the check is skipped (returns
`True`); otherwise the HMAC-SHA256 hex digest of the body under the secret
is compared with the received signature. The HMAC primitive itself is
library code; the handler is uniform in it, so it is a function parameter
`hmacHex : secret → body → hex digest`. -/
def verify_webhook_signature (hmacHex : String → String → String)
    (webhookSecret : String) (payloadBody sig : String) : Bool :=
  if webhookSecret = "" then
    true
  else
    hmacHex webhookSecret payloadBody = sig

/-- `chapa_webhook` from `app/routers/payments.py` (lines 362-460).
Notification count is 0 on every path: the handler contains no
`notification_service` call. The `status ≠ PENDING` branch (source lines
422-424) is kept even though the scan at line 404 only yields `PENDING`
rows. `verify` is the outcome `chapa_service.verify_payment` would produce
if called; `now` is `datetime.now()` at update time. -/
def chapa_webhook (hmacHex : String → String → String) (webhookSecret : String)
    (key : Nat) (req : WebhookRequest) (store : List Payment)
    (verify : VerifyOutcome) (now : Int) : WebhookEffects :=
  match req.x_chapa_signature with
  | none =>
      ⟨.unauthorized "X-Chapa-Signature header missing", store, false, 0, 0, 0⟩
  | some sig =>
    if verify_webhook_signature hmacHex webhookSecret req.rawBody sig = false then
      ⟨.unauthorized "Invalid webhook signature", store, false, 0, 0, 0⟩
    else
      match req.parsedJson with
      | none => ⟨.badRequest "Invalid JSON payload", store, false, 0, 0, 0⟩
      | some payload =>
        match payload.tx_ref, payload.status with
        | some txRef, some txStatus =>
          if txRef = "" ∨ txStatus = "" then
            ⟨.badRequest "Invalid webhook payload", store, false, 0, 0, 0⟩
          else
            match findByRef key txRef
                (store.filter (fun p => p.status = PaymentStatus.PENDING)) with
            | none =>
                ⟨.ok "Payment not found or not in PENDING state, no action taken",
                  store, true, 0, 0, 0⟩
            | some found =>
              if found.status ≠ PaymentStatus.PENDING then
                ⟨.ok "Payment already processed, no action taken",
                  store, true, 0, 0, 0⟩
              else
                let newStatus :=
                  match verify with
                  | .raised => PaymentStatus.FAILED
                  | .resp s ds =>
                      if s ≠ "success" ∨ ds ≠ some "success" then
                        PaymentStatus.FAILED
                      else PaymentStatus.SUCCESS
                ⟨.ok "Webhook processed successfully",
                  updateStatus store found.id newStatus now, true, 1,
                  if newStatus = PaymentStatus.SUCCESS then 1 else 0, 0⟩
        | _, _ => ⟨.badRequest "Invalid webhook payload", store, false, 0, 0, 0⟩

/-- `timeout_pending_payments` from `app/routers/payments.py` (lines 30-58):
every `PENDING` payment with `created_at < now - timeoutWindow` is set to
`FAILED` with `updated_at := now` and committed; all other rows are
untouched. `timeoutWindow` is `timedelta(days=settings.PAYMENT_TIMEOUT_DAYS)`.
The second component counts notifications dispatched by the sweep: the
function body (source lines 43-56) contains no notification call, so it is
0. -/
def timeout_pending_payments (now timeoutWindow : Int) (store : List Payment) :
    List Payment × Nat :=
  (store.map (fun p =>
      if p.status = PaymentStatus.PENDING ∧ p.created_at < now - timeoutWindow then
        { p with status := PaymentStatus.FAILED, updated_at := now }
      else p),
   0)

/-- HTTP-level result of the return-redirect handler. `attrError` models an
uncaught Python `AttributeError` escaping the handler (FastAPI then answers
HTTP 500), raised when the handler reads an attribute that the `Settings`
object does not define. -/
inductive ReturnResult where
  | redirect (url : String)
  | attrError (name : String)
deriving DecidableEq

/-- Effects of one `chapa_return` call. -/
structure ReturnEffects where
  result : ReturnResult
  store : List Payment
  verifyCalls : Nat
  approvalCalls : Nat
deriving DecidableEq

/-- Reading `settings.FRONTEND_REDIRECT_URL`: the `Settings` class in
`app/config.py` (lines 3-28) declares no `FRONTEND_REDIRECT_URL` field and
uses `extra="ignore"`, so the attribute does not exist on the settings
object and every access raises `AttributeError`. The handler is stated over
`fru : Option String`, the value of that attribute if it exists; the
repository's actual configuration is `config_FRONTEND_REDIRECT_URL = none`. -/
def config_FRONTEND_REDIRECT_URL : Option String := none

/-- Building `RedirectResponse(url=f"{settings.FRONTEND_REDIRECT_URL}{query}")`:
the attribute is read first, so with `fru = none` the construction raises
`AttributeError` instead of producing a redirect. -/
def redirectTo (fru : Option String) (query : String) : ReturnResult :=
  match fru with
  | none => .attrError "FRONTEND_REDIRECT_URL"
  | some u => .redirect (u ++ query)

/-- `chapa_return` from `app/routers/payments.py` (lines 288-359). The scan
at lines 308-319 walks all payments (not only `PENDING` ones).
`approvalRaises` is whether `confirm_payment_with_listing_service` would
raise if called; `verify` is the outcome of `chapa_service.verify_payment`.
In the fresh-verification branch the store commit (source line 343)
happens before the redirect is built, so the updated store is kept even
when the redirect construction raises `AttributeError`. -/
def chapa_return (fru : Option String) (key : Nat) (trx_ref : Option String)
    (store : List Payment) (verify : VerifyOutcome) (approvalRaises : Bool)
    (now : Int) : ReturnEffects :=
  match trx_ref with
  | none =>
      ⟨redirectTo fru "?status=failed&reason=invalid_return", store, 0, 0⟩
  | some ref =>
    if ref = "" then
      ⟨redirectTo fru "?status=failed&reason=invalid_return", store, 0, 0⟩
    else
      match findByRef key ref store with
      | none =>
          ⟨redirectTo fru "?status=failed&reason=not_found", store, 0, 0⟩
      | some found =>
        if found.status ≠ PaymentStatus.PENDING then
          let rs :=
            if found.status = PaymentStatus.SUCCESS then "success" else "failed"
          ⟨redirectTo fru ("?status=" ++ rs ++ "&payment_id=" ++ toString found.id),
            store, 0, 0⟩
        else
          let newStatus :=
            match verify with
            | .raised => PaymentStatus.FAILED
            | .resp s ds =>
                if s = "success" ∧ ds = some "success" then
                  PaymentStatus.SUCCESS
                else PaymentStatus.FAILED
          let store2 := updateStatus store found.id newStatus now
          if newStatus = PaymentStatus.SUCCESS then
            if approvalRaises then
              ⟨redirectTo fru ("?status=success&payment_id=" ++ toString found.id
                  ++ "&issue=confirmation_failed"), store2, 1, 1⟩
            else
              ⟨redirectTo fru ("?status=success&payment_id=" ++ toString found.id),
                store2, 1, 1⟩
          else
            ⟨redirectTo fru ("?status=failed&payment_id=" ++ toString found.id),
              store2, 1, 0⟩

/-- The user details an initiation request acts on: the authenticated
entity's fields (`UserAuthResponse` in `app/schemas/payment.py` lines
59-64), or the record fetched from the User Management service for
service-to-service calls. -/
structure UserDetails where
  user_id : Nat
  email : String
  phone_number : String
  preferred_language : String
deriving DecidableEq

/-- Lines 134-152 of `initiate_payment`: for a `Service` caller the payer's
details come from `get_user_details_for_notification` (`userLookup`, `none`
when that lookup fails); otherwise the authenticated entity itself is used. -/
def resolve_user_details (role : String) (entity : UserDetails)
    (userLookup : Option UserDetails) : Option UserDetails :=
  if role = "Service" then userLookup else some entity

/-- The request body `PaymentCreate` (`app/schemas/payment.py` lines 9-16)
after validation, with `request_id` already defaulted (see
`parse_request_id`). -/
structure PaymentCreateReq where
  request_id : Nat
  property_id : Nat
  user_id : Nat
  amount : ℚ
deriving DecidableEq

/-- `request_id: uuid.UUID = Field(default_factory=uuid.uuid4)`
(`app/schemas/payment.py` line 10): an omitted `request_id` is replaced by a
freshly generated random UUID, a supplied one is kept. -/
def parse_request_id (supplied : Option Nat) (freshUuid : Nat) : Nat :=
  supplied.getD freshUuid

/-- `ChapaInitializeResponse` (`app/schemas/payment.py` lines 45-48): the
`data` dict is modelled as an association list. -/
structure GatewayInitResponse where
  status : String
  message : String
  data : List (String × String)

/-- `chapa_response.data['checkout_url']` lookup; `none` models the
`KeyError` path. -/
def lookupData (data : List (String × String)) (k : String) : Option String :=
  (data.find? (fun kv => kv.1 = k)).map (fun kv => kv.2)

/-- `PaymentResponse` (`app/schemas/payment.py` lines 22-27) as returned by
the handlers. -/
structure PaymentView where
  id : Nat
  property_id : Nat
  user_id : Nat
  amount : ℚ
  status : PaymentStatus
  chapa_tx_ref : String
  created_at : Int
  updated_at : Int
deriving DecidableEq

/-- The idempotent-replay response (payments.py lines 169-179): the stored
payment's view with `chapa_tx_ref` masked as `"********"`. -/
def maskedResponse (p : Payment) : PaymentView :=
  ⟨p.id, p.property_id, p.user_id, p.amount, p.status, "********",
    p.created_at, p.updated_at⟩

/-- HTTP-level result of `initiate_payment`. -/
inductive InitiateResult where
  | accepted (resp : PaymentView)
  | notFound (detail : String)
  | badRequest (detail : String)
  | serverError (detail : String)
deriving DecidableEq

/-- Effects of one `initiate_payment` call: result, store afterwards, and
counters for gateway-initialize calls and notifications dispatched. -/
structure InitiateEffects where
  result : InitiateResult
  store : List Payment
  gatewayCalls : Nat
  notifications : Nat
deriving DecidableEq

/-- The row stored by the creation path of `initiate_payment` (payments.py
lines 220-230): fresh id, caller's `request_id`/`property_id`/`amount`, the
resolved payer id, status `PENDING`, the encrypted transaction reference. -/
def mkNewPayment (key : Nat) (pc : PaymentCreateReq) (details : UserDetails)
    (freshTxRef : String) (freshId : Nat) (now : Int) : Payment :=
  ⟨freshId, pc.request_id, pc.property_id, details.user_id, pc.amount,
    PaymentStatus.PENDING, encrypt_data key freshTxRef, now, now⟩

/-- `initiate_payment` from `app/routers/payments.py` (lines 112-251).
`freshTxRef` is the generated `tx-{uuid4}` reference, `freshId` the new
row's primary key, `gateway` the response `chapa_service.initialize_payment`
would return. The `scalar_one_or_none` idempotency lookup (lines 161-164) is
the first list match; the `request_id` column carries a unique constraint
(`app/models/payment.py` line 23), so at most one row can match. No path of
the source function calls `notification_service`, so `notifications` is 0
throughout. -/
def initiate_payment (key : Nat) (pc : PaymentCreateReq) (role : String)
    (entity : UserDetails) (userLookup : Option UserDetails)
    (freshTxRef : String) (freshId : Nat) (now : Int)
    (gateway : GatewayInitResponse) (store : List Payment) : InitiateEffects :=
  match resolve_user_details role entity userLookup with
  | none =>
      ⟨.notFound "User details not found for the provided user_id", store, 0, 0⟩
  | some details =>
    if details.phone_number = "" then
      ⟨.badRequest "User phone number not provided", store, 0, 0⟩
    else
      match store.find? (fun p => p.request_id = pc.request_id) with
      | some existing => ⟨.accepted (maskedResponse existing), store, 0, 0⟩
      | none =>
        if gateway.status ≠ "success" then
          ⟨.badRequest ("Payment initialization failed: " ++ gateway.message),
            store, 1, 0⟩
        else
          match lookupData gateway.data "checkout_url" with
          | none => ⟨.serverError "Internal server error", store, 1, 0⟩
          | some checkoutUrl =>
            let np := mkNewPayment key pc details freshTxRef freshId now
            ⟨.accepted ⟨freshId, pc.property_id, details.user_id, pc.amount,
                PaymentStatus.PENDING, checkoutUrl, now, now⟩,
              store ++ [np], 1, 0⟩

/-- Exceptions relevant to the Retry Wrapper call sites: `HTTPException`
with its status code, `httpx.RequestError`, and any other exception. -/
inductive Exn where
  | httpExn (code : Nat)
  | requestError
  | otherExn
deriving DecidableEq

/-- Recursion of `async_retry` (`app/utils/retry.py` lines 18-31).
`retriesLeft` is how many further attempts remain after the current one,
`idx` numbers the current attempt from 0, `cur` is `current_delay`.
`results idx` is what the wrapped operation does on attempt `idx`. Returns
the wrapper's outcome together with the list of sleep delays performed, in
order. An in-set failure with attempts remaining sleeps `cur` and retries
with `cur * backoff`; an in-set failure on the last attempt is re-raised;
a failure outside the configured set is not caught by the
`except exceptions` clause and propagates at once. -/
def async_retry_go {E A : Type} (inSet : E → Bool) (backoff : ℚ)
    (results : Nat → Except E A) :
    Nat → Nat → ℚ → Except E A × List ℚ
  | 0, idx, _ => (results idx, [])
  | r + 1, idx, cur =>
    match results idx with
    | .ok a => (.ok a, [])
    | .error e =>
      if inSet e then
        let rest := async_retry_go inSet backoff results r (idx + 1) (cur * backoff)
        (rest.1, cur :: rest.2)
      else (.error e, [])

/-- `async_retry` from `app/utils/retry.py` (line 6): at most `maxAttempts`
attempts (the source loop runs `attempt` from 1 to `max_attempts`), initial
delay `delay`, each sleep multiplying the delay by `backoff`. Stated for
`maxAttempts ≥ 1`, which every call site satisfies (all use 3). -/
def async_retry {E A : Type} (maxAttempts : Nat) (delay backoff : ℚ)
    (inSet : E → Bool) (results : Nat → Except E A) : Except E A × List ℚ :=
  async_retry_go inSet backoff results (maxAttempts - 1) 0 delay

/-- What one call to the User Management `POST /auth/verify` dependency
does, as seen by `verify_with_user_management`. -/
inductive DepResult where
  | ok (json : String)
  | requestErr
  | httpStatus (code : Nat)
deriving DecidableEq

/-- The body of `verify_with_user_management` (`app/dependencies/auth.py`
lines 61-92) around one dependency call: `httpx.RequestError` becomes
`HTTPException(503)`; an HTTP error status becomes `HTTPException` with 401
mapped to the credentials exception (401), 403 to `HTTPException(403)`, and
any other status propagated as `HTTPException` with that status. -/
def mapVerifyUM : DepResult → Except Exn String
  | .ok j => .ok j
  | .requestErr => .error (.httpExn 503)
  | .httpStatus c => .error (.httpExn c)

/-- The exception set configured at the `verify_with_user_management` site:
`exceptions=(httpx.RequestError, HTTPException)` (`app/dependencies/auth.py`
line 60). -/
def retrySetAuth : Exn → Bool
  | .httpExn _ => true
  | .requestError => true
  | .otherExn => false

/-- `verify_with_user_management` (`app/dependencies/auth.py` lines 60-94):
the dependency call wrapped by `async_retry(max_attempts=3, delay=1)` with
the default `backoff_factor=2.0`. `responses i` is the dependency's
behaviour on attempt `i`. -/
def verify_with_user_management (responses : Nat → DepResult) :
    Except Exn String × List ℚ :=
  async_retry 3 1 2 retrySetAuth (fun i => mapVerifyUM (responses i))

theorem find?_of_filter_eq_cons {α : Type} {pred : α → Bool} :
    ∀ {l : List α} {a : α} {rest : List α},
      l.filter pred = a :: rest → l.find? pred = some a := by
  intro l
  induction l with
  | nil => intro a rest h; simp at h
  | cons x xs ih =>
    intro a rest h
    cases hx : pred x with
    | true =>
      simp only [List.filter, hx] at h
      injection h with h1 h2
      subst h1
      simp only [List.find?, hx]
    | false =>
      simp only [List.filter, hx] at h
      simp only [List.find?, hx]
      exact ih h

theorem find?_of_filter_eq_nil {α : Type} {pred : α → Bool} :
    ∀ {l : List α}, l.filter pred = [] → l.find? pred = none := by
  intro l
  induction l with
  | nil => intro _; rfl
  | cons x xs ih =>
    intro h
    cases hx : pred x with
    | true =>
      simp only [List.filter, hx] at h
      exact absurd h (List.cons_ne_nil _ _)
    | false =>
      simp only [List.filter, hx] at h
      simp only [List.find?, hx]
      exact ih h

/-- C5: under one key, `decrypt_data` inverts `encrypt_data`; decrypting a
ciphertext produced under a different key fails with `InvalidCiphertext`
(`none`); and the decrypt-and-scan loop `findByRef` used by both the
webhook handler and the return-redirect handler treats an undecryptable
record as "no match" for that record (the scan continues over the rest),
never as a fatal error. -/
theorem C5_crypto_envelope :
    (∀ (key : Nat) (x : String), decrypt_data key (encrypt_data key x) = some x) ∧
    (∀ (key otherKey : Nat) (x : String), otherKey ≠ key →
      decrypt_data otherKey (encrypt_data key x) = none) ∧
    (∀ (key : Nat) (ref : String) (p : Payment) (rest : List Payment),
      decrypt_data key p.chapa_tx_ref = none →
      findByRef key ref (p :: rest) = findByRef key ref rest) := by
  refine ⟨?_, ?_, ?_⟩
  · intro key x
    simp [encrypt_data, decrypt_data]
  · intro key otherKey x hne
    simp [encrypt_data, decrypt_data, Ne.symm hne]
  · intro key ref p rest h
    simp [findByRef, List.find?, h]

/-- Witness for C5 at concrete inputs. -/
theorem C5_witness :
    decrypt_data 1 (encrypt_data 1 "abc") = some "abc" ∧
    decrypt_data 2 (encrypt_data 1 "abc") = none ∧
    findByRef 1 "r"
        (⟨7, 1, 2, 3, 100, PaymentStatus.PENDING, ⟨9, "z"⟩, 0, 0⟩ :: []) =
      findByRef 1 "r" [] :=
  ⟨C5_crypto_envelope.1 1 "abc",
   C5_crypto_envelope.2.1 1 2 "abc" (by decide),
   C5_crypto_envelope.2.2 1 "r"
     ⟨7, 1, 2, 3, 100, PaymentStatus.PENDING, ⟨9, "z"⟩, 0, 0⟩ [] (by decide)⟩

/-- C4: the timeout sweep of `app/routers/payments.py` (lines 30-58),
evaluated at the claim's scenario (timeout window 7 days, one `PENDING`
payment 8 days old, one 1 day old, one terminal): the stale `PENDING`
payment is transitioned to `FAILED` and persisted with a refreshed
`updated_at`, the young `PENDING` payment and the terminal payment are
unchanged — but the notification count is 0 on every run (the function
dispatches no notification at all), not the "exactly one per timed-out
payment" the claim states. -/
theorem C4_timeout_sweep_sends_no_notification :
    (timeout_pending_payments 100 7
        [⟨1, 11, 21, 31, 100, PaymentStatus.PENDING, ⟨0, "a"⟩, 92, 92⟩,
         ⟨2, 12, 22, 32, 100, PaymentStatus.PENDING, ⟨0, "b"⟩, 99, 99⟩,
         ⟨3, 13, 23, 33, 100, PaymentStatus.SUCCESS, ⟨0, "c"⟩, 90, 90⟩] =
      ([⟨1, 11, 21, 31, 100, PaymentStatus.FAILED, ⟨0, "a"⟩, 92, 100⟩,
        ⟨2, 12, 22, 32, 100, PaymentStatus.PENDING, ⟨0, "b"⟩, 99, 99⟩,
        ⟨3, 13, 23, 33, 100, PaymentStatus.SUCCESS, ⟨0, "c"⟩, 90, 90⟩], 0)) ∧
    (∀ (now timeoutWindow : Int) (store : List Payment),
      (timeout_pending_payments now timeoutWindow store).2 = 0) :=
  ⟨by decide, fun _ _ _ => rfl⟩

/-- C8: with the repository's configuration the return-redirect handler
never produces a redirect: `Settings` in `app/config.py` declares no
`FRONTEND_REDIRECT_URL` field (and `extra="ignore"` discards any such
environment variable), so on every input and every branch `chapa_return`
raises `AttributeError` while building the redirect URL, which surfaces as
HTTP 500 — contradicting "the response is always a redirect ... never an
HTTP error code". -/
theorem C8_return_always_attribute_error (key : Nat) (trx_ref : Option String)
    (store : List Payment) (verify : VerifyOutcome) (approvalRaises : Bool)
    (now : Int) :
    (chapa_return config_FRONTEND_REDIRECT_URL key trx_ref store verify
        approvalRaises now).result =
      ReturnResult.attrError "FRONTEND_REDIRECT_URL" := by
  unfold chapa_return
  cases trx_ref with
  | none => rfl
  | some ref =>
    dsimp only
    repeat' first
      | rfl
      | split

theorem initiate_replay_eq (key : Nat) (pc : PaymentCreateReq) (role : String)
    (entity : UserDetails) (userLookup : Option UserDetails) (freshTxRef : String)
    (freshId : Nat) (now : Int) (gateway : GatewayInitResponse)
    (store : List Payment) (details : UserDetails) (p : Payment)
    (hres : resolve_user_details role entity userLookup = some details)
    (hphone : ¬ details.phone_number = "")
    (hfind : store.find? (fun q => q.request_id = pc.request_id) = some p) :
    initiate_payment key pc role entity userLookup freshTxRef freshId now
        gateway store =
      ⟨.accepted (maskedResponse p), store, 0, 0⟩ := by
  simp [initiate_payment, hres, hphone, hfind]

theorem initiate_gateway_reject_eq (key : Nat) (pc : PaymentCreateReq)
    (role : String) (entity : UserDetails) (userLookup : Option UserDetails)
    (freshTxRef : String) (freshId : Nat) (now : Int)
    (gateway : GatewayInitResponse) (store : List Payment) (details : UserDetails)
    (hres : resolve_user_details role entity userLookup = some details)
    (hphone : ¬ details.phone_number = "")
    (hfind : store.find? (fun q => q.request_id = pc.request_id) = none)
    (hgw : gateway.status ≠ "success") :
    initiate_payment key pc role entity userLookup freshTxRef freshId now
        gateway store =
      ⟨.badRequest ("Payment initialization failed: " ++ gateway.message),
        store, 1, 0⟩ := by
  simp [initiate_payment, hres, hphone, hfind, hgw]

theorem initiate_create_eq (key : Nat) (pc : PaymentCreateReq) (role : String)
    (entity : UserDetails) (userLookup : Option UserDetails) (freshTxRef : String)
    (freshId : Nat) (now : Int) (gateway : GatewayInitResponse)
    (store : List Payment) (details : UserDetails) (checkoutUrl : String)
    (hres : resolve_user_details role entity userLookup = some details)
    (hphone : ¬ details.phone_number = "")
    (hfind : store.find? (fun q => q.request_id = pc.request_id) = none)
    (hgw : gateway.status = "success")
    (hurl : lookupData gateway.data "checkout_url" = some checkoutUrl) :
    initiate_payment key pc role entity userLookup freshTxRef freshId now
        gateway store =
      ⟨.accepted ⟨freshId, pc.property_id, details.user_id, pc.amount,
          PaymentStatus.PENDING, checkoutUrl, now, now⟩,
        store ++ [mkNewPayment key pc details freshTxRef freshId now], 1, 0⟩ := by
  simp [initiate_payment, hres, hphone, hfind, hgw, hurl]

/-- C1: on an initiation request whose `request_id` already has a stored
Payment, `initiate_payment` returns that payment's view with the
transaction reference masked (`"********"`), makes no gateway-initialize
call and sends no notification, leaves the store unchanged, and afterwards
exactly one Payment row with that `request_id` exists. The supplied
`property_id` and `amount` in `pc` are unconstrained, so the result holds
regardless of whether they differ from the stored row. The hypothesis
`hone` is the unique constraint on `request_id` (`app/models/payment.py`
line 23): exactly one stored row matches. -/
theorem C1_initiate_idempotent (key : Nat) (pc : PaymentCreateReq)
    (role : String) (entity : UserDetails) (userLookup : Option UserDetails)
    (freshTxRef : String) (freshId : Nat) (now : Int)
    (gateway : GatewayInitResponse) (store : List Payment)
    (details : UserDetails) (p : Payment)
    (hres : resolve_user_details role entity userLookup = some details)
    (hphone : ¬ details.phone_number = "")
    (hone : store.filter (fun q => q.request_id = pc.request_id) = [p]) :
    initiate_payment key pc role entity userLookup freshTxRef freshId now
        gateway store =
      ⟨.accepted (maskedResponse p), store, 0, 0⟩ ∧
    ((initiate_payment key pc role entity userLookup freshTxRef freshId now
        gateway store).store.filter
          (fun q => q.request_id = pc.request_id)).length = 1 := by
  have heq := initiate_replay_eq key pc role entity userLookup freshTxRef
    freshId now gateway store details p hres hphone
    (find?_of_filter_eq_cons hone)
  refine ⟨heq, ?_⟩
  rw [heq]
  simp [hone]

/-- Witness for C1: the stored row has `property_id = 8` and `amount = 7`
while the request supplies `property_id = 2` and `amount = 100`; the replay
still returns the stored row's masked view untouched. -/
theorem C1_witness :
    initiate_payment 0 ⟨1, 2, 3, 100⟩ "Owner" ⟨3, "o@x", "+2519", "en"⟩ none
        "tx-f" 9 50 ⟨"success", "ok", [("checkout_url", "u")]⟩
        [⟨5, 1, 8, 3, 7, PaymentStatus.PENDING, ⟨0, "r"⟩, 0, 0⟩] =
      ⟨.accepted (maskedResponse ⟨5, 1, 8, 3, 7, PaymentStatus.PENDING,
          ⟨0, "r"⟩, 0, 0⟩),
        [⟨5, 1, 8, 3, 7, PaymentStatus.PENDING, ⟨0, "r"⟩, 0, 0⟩], 0, 0⟩ ∧
    ((initiate_payment 0 ⟨1, 2, 3, 100⟩ "Owner" ⟨3, "o@x", "+2519", "en"⟩ none
        "tx-f" 9 50 ⟨"success", "ok", [("checkout_url", "u")]⟩
        [⟨5, 1, 8, 3, 7, PaymentStatus.PENDING, ⟨0, "r"⟩, 0, 0⟩]).store.filter
          (fun q => q.request_id = (⟨1, 2, 3, 100⟩ : PaymentCreateReq).request_id)).length = 1 :=
  C1_initiate_idempotent 0 ⟨1, 2, 3, 100⟩ "Owner" ⟨3, "o@x", "+2519", "en"⟩ none
    "tx-f" 9 50 ⟨"success", "ok", [("checkout_url", "u")]⟩
    [⟨5, 1, 8, 3, 7, PaymentStatus.PENDING, ⟨0, "r"⟩, 0, 0⟩]
    ⟨3, "o@x", "+2519", "en"⟩ ⟨5, 1, 8, 3, 7, PaymentStatus.PENDING, ⟨0, "r"⟩, 0, 0⟩
    (by decide) (by decide) (by decide)

/-- C6: on an initiation request with no stored Payment for its
`request_id` (`hnone`), a gateway response whose `status` is not
`"success"` makes `initiate_payment` fail with HTTP 400 and leave the
store unchanged; a `"success"` response carrying a `checkout_url` persists
exactly one new Payment — status `PENDING`, transaction reference stored
encrypted — and the 202 response carries the checkout URL in the
`chapa_tx_ref` field. -/
theorem C6_initiate_creation (key : Nat) (pc : PaymentCreateReq) (role : String)
    (entity : UserDetails) (userLookup : Option UserDetails) (freshTxRef : String)
    (freshId : Nat) (now : Int) (gateway : GatewayInitResponse)
    (store : List Payment) (details : UserDetails)
    (hres : resolve_user_details role entity userLookup = some details)
    (hphone : ¬ details.phone_number = "")
    (hnone : store.filter (fun q => q.request_id = pc.request_id) = []) :
    (gateway.status ≠ "success" →
      initiate_payment key pc role entity userLookup freshTxRef freshId now
          gateway store =
        ⟨.badRequest ("Payment initialization failed: " ++ gateway.message),
          store, 1, 0⟩) ∧
    (∀ checkoutUrl, gateway.status = "success" →
      lookupData gateway.data "checkout_url" = some checkoutUrl →
      initiate_payment key pc role entity userLookup freshTxRef freshId now
          gateway store =
        ⟨.accepted ⟨freshId, pc.property_id, details.user_id, pc.amount,
            PaymentStatus.PENDING, checkoutUrl, now, now⟩,
          store ++ [mkNewPayment key pc details freshTxRef freshId now], 1, 0⟩ ∧
      (mkNewPayment key pc details freshTxRef freshId now).status =
        PaymentStatus.PENDING ∧
      (mkNewPayment key pc details freshTxRef freshId now).chapa_tx_ref =
        encrypt_data key freshTxRef) := by
  have hfind := find?_of_filter_eq_nil hnone
  constructor
  · intro hgw
    exact initiate_gateway_reject_eq key pc role entity userLookup freshTxRef
      freshId now gateway store details hres hphone hfind hgw
  · intro checkoutUrl hgw hurl
    exact ⟨initiate_create_eq key pc role entity userLookup freshTxRef freshId
      now gateway store details checkoutUrl hres hphone hfind hgw hurl,
      rfl, rfl⟩

/-- Witness for C6: one rejected initiation (gateway status `"failed"`, no
row created) and one successful initiation (row persisted, checkout URL
returned), both on the empty store. -/
theorem C6_witness :
    (initiate_payment 0 ⟨1, 2, 3, 100⟩ "Owner" ⟨3, "o@x", "+2519", "en"⟩ none
        "tx-f" 9 50 ⟨"failed", "declined", []⟩ [] =
      ⟨.badRequest ("Payment initialization failed: " ++ "declined"),
        [], 1, 0⟩) ∧
    (initiate_payment 0 ⟨1, 2, 3, 100⟩ "Owner" ⟨3, "o@x", "+2519", "en"⟩ none
        "tx-f" 9 50 ⟨"success", "ok", [("checkout_url", "u")]⟩ [] =
      ⟨.accepted ⟨9, 2, 3, 100, PaymentStatus.PENDING, "u", 50, 50⟩,
        [] ++ [mkNewPayment 0 ⟨1, 2, 3, 100⟩ ⟨3, "o@x", "+2519", "en"⟩
          "tx-f" 9 50], 1, 0⟩) :=
  ⟨(C6_initiate_creation 0 ⟨1, 2, 3, 100⟩ "Owner" ⟨3, "o@x", "+2519", "en"⟩ none
      "tx-f" 9 50 ⟨"failed", "declined", []⟩ [] ⟨3, "o@x", "+2519", "en"⟩
      (by decide) (by decide) (by decide)).1 (by decide),
   ((C6_initiate_creation 0 ⟨1, 2, 3, 100⟩ "Owner" ⟨3, "o@x", "+2519", "en"⟩ none
      "tx-f" 9 50 ⟨"success", "ok", [("checkout_url", "u")]⟩ []
      ⟨3, "o@x", "+2519", "en"⟩
      (by decide) (by decide) (by decide)).2 "u" rfl (by decide)).1⟩

/-- C10: `request_id` is optional in the initiation body and defaults to a
freshly generated UUID (`parse_request_id`), so two calls that omit it (and
thus get distinct fresh UUIDs `f1 ≠ f2` unused in the store) each create
their own new Payment row and each call the gateway; the idempotent replay
happens only when the caller explicitly supplies the same `request_id`
again (last conjunct: a third call supplying `f1` returns the first row's
masked view with no gateway call and no new row). -/
theorem C10_request_id_default (key property_id user_id : Nat) (amount : ℚ)
    (role : String) (entity : UserDetails) (userLookup : Option UserDetails)
    (tx1 tx2 tx3 : String) (id1 id2 id3 : Nat) (now : Int)
    (gateway : GatewayInitResponse) (store : List Payment)
    (details : UserDetails) (f1 f2 fresh3 : Nat) (checkoutUrl : String)
    (hres : resolve_user_details role entity userLookup = some details)
    (hphone : ¬ details.phone_number = "")
    (hgw : gateway.status = "success")
    (hurl : lookupData gateway.data "checkout_url" = some checkoutUrl)
    (h1 : store.filter (fun q => q.request_id = f1) = [])
    (h2 : store.filter (fun q => q.request_id = f2) = [])
    (hne : f1 ≠ f2) :
    (parse_request_id none f1 = f1 ∧ parse_request_id (some f1) fresh3 = f1) ∧
    (initiate_payment key ⟨f1, property_id, user_id, amount⟩ role entity
        userLookup tx1 id1 now gateway store =
      ⟨.accepted ⟨id1, property_id, details.user_id, amount,
          PaymentStatus.PENDING, checkoutUrl, now, now⟩,
        store ++ [mkNewPayment key ⟨f1, property_id, user_id, amount⟩ details
          tx1 id1 now], 1, 0⟩) ∧
    (initiate_payment key ⟨f2, property_id, user_id, amount⟩ role entity
        userLookup tx2 id2 now gateway
        (store ++ [mkNewPayment key ⟨f1, property_id, user_id, amount⟩ details
          tx1 id1 now]) =
      ⟨.accepted ⟨id2, property_id, details.user_id, amount,
          PaymentStatus.PENDING, checkoutUrl, now, now⟩,
        (store ++ [mkNewPayment key ⟨f1, property_id, user_id, amount⟩ details
          tx1 id1 now]) ++ [mkNewPayment key ⟨f2, property_id, user_id, amount⟩
          details tx2 id2 now], 1, 0⟩) ∧
    ((mkNewPayment key ⟨f1, property_id, user_id, amount⟩ details
        tx1 id1 now).request_id ≠
      (mkNewPayment key ⟨f2, property_id, user_id, amount⟩ details
        tx2 id2 now).request_id) ∧
    (initiate_payment key ⟨f1, property_id, user_id, amount⟩ role entity
        userLookup tx3 id3 now gateway
        ((store ++ [mkNewPayment key ⟨f1, property_id, user_id, amount⟩ details
          tx1 id1 now]) ++ [mkNewPayment key ⟨f2, property_id, user_id, amount⟩
          details tx2 id2 now]) =
      ⟨.accepted (maskedResponse (mkNewPayment key
          ⟨f1, property_id, user_id, amount⟩ details tx1 id1 now)),
        (store ++ [mkNewPayment key ⟨f1, property_id, user_id, amount⟩ details
          tx1 id1 now]) ++ [mkNewPayment key ⟨f2, property_id, user_id, amount⟩
          details tx2 id2 now], 0, 0⟩) := by
  have hfind1 := find?_of_filter_eq_nil h1
  have hfil2 : ((store ++ [mkNewPayment key ⟨f1, property_id, user_id, amount⟩
      details tx1 id1 now]).filter (fun q => q.request_id = f2)) = [] := by
    simp [List.filter_append, h2, mkNewPayment, hne]
  have hfil3 : (((store ++ [mkNewPayment key ⟨f1, property_id, user_id, amount⟩
      details tx1 id1 now]) ++ [mkNewPayment key
      ⟨f2, property_id, user_id, amount⟩ details tx2 id2 now]).filter
        (fun q => q.request_id = f1)) =
      [mkNewPayment key ⟨f1, property_id, user_id, amount⟩ details tx1 id1 now] := by
    simp [List.filter_append, h1, mkNewPayment, Ne.symm hne]
  refine ⟨⟨rfl, rfl⟩, ?_, ?_, ?_, ?_⟩
  · exact initiate_create_eq key ⟨f1, property_id, user_id, amount⟩ role entity
      userLookup tx1 id1 now gateway store details checkoutUrl hres hphone
      hfind1 hgw hurl
  · exact initiate_create_eq key ⟨f2, property_id, user_id, amount⟩ role entity
      userLookup tx2 id2 now gateway _ details checkoutUrl hres hphone
      (find?_of_filter_eq_nil hfil2) hgw hurl
  · simpa [mkNewPayment] using hne
  · exact initiate_replay_eq key ⟨f1, property_id, user_id, amount⟩ role entity
      userLookup tx3 id3 now gateway _ details _ hres hphone
      (find?_of_filter_eq_cons hfil3)

/-- Witness for C10 at concrete inputs: empty store, fresh UUIDs 41 and 42. -/
theorem C10_witness :
    ((parse_request_id none 41 = 41 ∧ parse_request_id (some 41) 77 = 41) ∧
    (initiate_payment 0 ⟨41, 2, 3, 100⟩ "Owner" ⟨3, "o@x", "+2519", "en"⟩ none
        "tx-a" 10 50 ⟨"success", "ok", [("checkout_url", "u")]⟩ [] =
      ⟨.accepted ⟨10, 2, 3, 100, PaymentStatus.PENDING, "u", 50, 50⟩,
        [] ++ [mkNewPayment 0 ⟨41, 2, 3, 100⟩ ⟨3, "o@x", "+2519", "en"⟩
          "tx-a" 10 50], 1, 0⟩) ∧
    (initiate_payment 0 ⟨42, 2, 3, 100⟩ "Owner" ⟨3, "o@x", "+2519", "en"⟩ none
        "tx-b" 11 50 ⟨"success", "ok", [("checkout_url", "u")]⟩
        ([] ++ [mkNewPayment 0 ⟨41, 2, 3, 100⟩ ⟨3, "o@x", "+2519", "en"⟩
          "tx-a" 10 50]) =
      ⟨.accepted ⟨11, 2, 3, 100, PaymentStatus.PENDING, "u", 50, 50⟩,
        ([] ++ [mkNewPayment 0 ⟨41, 2, 3, 100⟩ ⟨3, "o@x", "+2519", "en"⟩
          "tx-a" 10 50]) ++ [mkNewPayment 0 ⟨42, 2, 3, 100⟩
          ⟨3, "o@x", "+2519", "en"⟩ "tx-b" 11 50], 1, 0⟩) ∧
    ((mkNewPayment 0 ⟨41, 2, 3, 100⟩ ⟨3, "o@x", "+2519", "en"⟩
        "tx-a" 10 50).request_id ≠
      (mkNewPayment 0 ⟨42, 2, 3, 100⟩ ⟨3, "o@x", "+2519", "en"⟩
        "tx-b" 11 50).request_id) ∧
    (initiate_payment 0 ⟨41, 2, 3, 100⟩ "Owner" ⟨3, "o@x", "+2519", "en"⟩ none
        "tx-c" 12 50 ⟨"success", "ok", [("checkout_url", "u")]⟩
        (([] ++ [mkNewPayment 0 ⟨41, 2, 3, 100⟩ ⟨3, "o@x", "+2519", "en"⟩
          "tx-a" 10 50]) ++ [mkNewPayment 0 ⟨42, 2, 3, 100⟩
          ⟨3, "o@x", "+2519", "en"⟩ "tx-b" 11 50]) =
      ⟨.accepted (maskedResponse (mkNewPayment 0 ⟨41, 2, 3, 100⟩
          ⟨3, "o@x", "+2519", "en"⟩ "tx-a" 10 50)),
        (([] ++ [mkNewPayment 0 ⟨41, 2, 3, 100⟩ ⟨3, "o@x", "+2519", "en"⟩
          "tx-a" 10 50]) ++ [mkNewPayment 0 ⟨42, 2, 3, 100⟩
          ⟨3, "o@x", "+2519", "en"⟩ "tx-b" 11 50]), 0, 0⟩)) :=
  C10_request_id_default 0 2 3 100 "Owner" ⟨3, "o@x", "+2519", "en"⟩ none
    "tx-a" "tx-b" "tx-c" 10 11 12 50
    ⟨"success", "ok", [("checkout_url", "u")]⟩ []
    ⟨3, "o@x", "+2519", "en"⟩ 41 42 77 "u"
    (by decide) (by decide) (by decide) (by decide) (by decide) (by decide)
    (by decide)

theorem chapa_webhook_no_pending_match (hmacHex : String → String → String)
    (secret : String) (key : Nat) (req : WebhookRequest) (store : List Payment)
    (verify : VerifyOutcome) (now : Int) (sig : String)
    (payload : WebhookPayloadData) (txRef txStatus : String)
    (hsig : req.x_chapa_signature = some sig)
    (hok : verify_webhook_signature hmacHex secret req.rawBody sig = true)
    (hparse : req.parsedJson = some payload)
    (href : payload.tx_ref = some txRef) (hst : payload.status = some txStatus)
    (hrefne : txRef ≠ "") (hstne : txStatus ≠ "")
    (hnomatch : ∀ q ∈ store, q.status = PaymentStatus.PENDING →
      ¬ decrypt_data key q.chapa_tx_ref = some txRef) :
    chapa_webhook hmacHex secret key req store verify now =
      ⟨.ok "Payment not found or not in PENDING state, no action taken",
        store, true, 0, 0, 0⟩ := by
  have hfind : findByRef key txRef
      (store.filter (fun p => p.status = PaymentStatus.PENDING)) = none := by
    apply List.find?_eq_none.mpr
    intro q hq
    rcases List.mem_filter.mp hq with ⟨hmem, hpend⟩
    simp only [decide_eq_true_eq] at hpend ⊢
    exact hnomatch q hmem hpend
  simp [chapa_webhook, hsig, hok, hparse, href, hst, hrefne, hstne, hfind]

/-- C7: an authenticated, well-formed webhook whose `tx_ref` matches no
pending payment after the decrypt-and-scan returns HTTP 200 with the
"no action taken" message and leaves every Payment record unchanged — no
store write, no gateway verification, no listing approval, no
notification. -/
theorem C7_webhook_no_match_no_writes (hmacHex : String → String → String)
    (secret : String) (key : Nat) (req : WebhookRequest) (store : List Payment)
    (verify : VerifyOutcome) (now : Int) (sig : String)
    (payload : WebhookPayloadData) (txRef txStatus : String)
    (hsig : req.x_chapa_signature = some sig)
    (hok : verify_webhook_signature hmacHex secret req.rawBody sig = true)
    (hparse : req.parsedJson = some payload)
    (href : payload.tx_ref = some txRef) (hst : payload.status = some txStatus)
    (hrefne : txRef ≠ "") (hstne : txStatus ≠ "")
    (hnomatch : ∀ q ∈ store, q.status = PaymentStatus.PENDING →
      ¬ decrypt_data key q.chapa_tx_ref = some txRef) :
    chapa_webhook hmacHex secret key req store verify now =
      ⟨.ok "Payment not found or not in PENDING state, no action taken",
        store, true, 0, 0, 0⟩ :=
  chapa_webhook_no_pending_match hmacHex secret key req store verify now sig
    payload txRef txStatus hsig hok hparse href hst hrefne hstne hnomatch

/-- Witness for C7: one PENDING payment whose reference does not match the
webhook's `tx_ref`. -/
theorem C7_witness :
    chapa_webhook (fun k b => k ++ b) "s" 0
        ⟨some "sbody", "body", some ⟨some "r", some "success"⟩⟩
        [⟨1, 2, 3, 4, 100, PaymentStatus.PENDING, ⟨0, "other"⟩, 0, 0⟩]
        (.resp "success" (some "success")) 7 =
      ⟨.ok "Payment not found or not in PENDING state, no action taken",
        [⟨1, 2, 3, 4, 100, PaymentStatus.PENDING, ⟨0, "other"⟩, 0, 0⟩],
        true, 0, 0, 0⟩ :=
  C7_webhook_no_match_no_writes (fun k b => k ++ b) "s" 0
    ⟨some "sbody", "body", some ⟨some "r", some "success"⟩⟩
    [⟨1, 2, 3, 4, 100, PaymentStatus.PENDING, ⟨0, "other"⟩, 0, 0⟩]
    (.resp "success" (some "success")) 7 "sbody"
    ⟨some "r", some "success"⟩ "r" "success"
    rfl (by decide) rfl rfl rfl (by decide) (by decide) (by decide)

/-- C2 (amended): a webhook carrying the transaction reference of a
terminal-state (SUCCESS or FAILED) payment is a 200 idempotent no-op — the
payment and every other record are unchanged, and no gateway verification,
listing approval or notification happens — but its body is the
"Payment not found or not in PENDING state, no action taken" message rather
than an "already processed" one: the handler scans only PENDING rows
(payments.py line 404), so a terminal payment is never matched and the
dedicated already-processed branch (lines 422-424) is unreachable. -/
theorem C2_webhook_terminal_noop (hmacHex : String → String → String)
    (secret : String) (key : Nat) (req : WebhookRequest) (store : List Payment)
    (verify : VerifyOutcome) (now : Int) (sig : String)
    (payload : WebhookPayloadData) (txRef txStatus : String) (p : Payment)
    (hsig : req.x_chapa_signature = some sig)
    (hok : verify_webhook_signature hmacHex secret req.rawBody sig = true)
    (hparse : req.parsedJson = some payload)
    (href : payload.tx_ref = some txRef) (hst : payload.status = some txStatus)
    (hrefne : txRef ≠ "") (hstne : txStatus ≠ "")
    (hmem : p ∈ store)
    (hterm : p.status = PaymentStatus.SUCCESS ∨ p.status = PaymentStatus.FAILED)
    (hpref : decrypt_data key p.chapa_tx_ref = some txRef)
    (hnomatch : ∀ q ∈ store, q.status = PaymentStatus.PENDING →
      ¬ decrypt_data key q.chapa_tx_ref = some txRef) :
    chapa_webhook hmacHex secret key req store verify now =
      ⟨.ok "Payment not found or not in PENDING state, no action taken",
        store, true, 0, 0, 0⟩ :=
  chapa_webhook_no_pending_match hmacHex secret key req store verify now sig
    payload txRef txStatus hsig hok hparse href hst hrefne hstne hnomatch

/-- Witness for the amended C2: one SUCCESS payment whose reference the
webhook carries. -/
theorem C2_witness :
    chapa_webhook (fun k b => k ++ b) "s" 0
        ⟨some "sbody", "body", some ⟨some "r", some "success"⟩⟩
        [⟨1, 2, 3, 4, 100, PaymentStatus.SUCCESS, ⟨0, "r"⟩, 0, 0⟩]
        (.resp "success" (some "success")) 7 =
      ⟨.ok "Payment not found or not in PENDING state, no action taken",
        [⟨1, 2, 3, 4, 100, PaymentStatus.SUCCESS, ⟨0, "r"⟩, 0, 0⟩],
        true, 0, 0, 0⟩ :=
  C2_webhook_terminal_noop (fun k b => k ++ b) "s" 0
    ⟨some "sbody", "body", some ⟨some "r", some "success"⟩⟩
    [⟨1, 2, 3, 4, 100, PaymentStatus.SUCCESS, ⟨0, "r"⟩, 0, 0⟩]
    (.resp "success" (some "success")) 7 "sbody"
    ⟨some "r", some "success"⟩ "r" "success"
    ⟨1, 2, 3, 4, 100, PaymentStatus.SUCCESS, ⟨0, "r"⟩, 0, 0⟩
    rfl (by decide) rfl rfl rfl (by decide) (by decide)
    (by decide) (Or.inl rfl) (by decide) (by decide)

/-- C2 counterexample: at this concrete input — a SUCCESS payment whose
transaction reference the authenticated webhook carries — the handler
returns the "Payment not found or not in PENDING state, no action taken"
message, which differs from the "already processed" outcome the claim
states. -/
theorem C2_counterexample :
    (chapa_webhook (fun k b => k ++ b) "s" 0
        ⟨some "sbody", "body", some ⟨some "r", some "success"⟩⟩
        [⟨1, 2, 3, 4, 100, PaymentStatus.SUCCESS, ⟨0, "r"⟩, 0, 0⟩]
        (.resp "success" (some "success")) 7).result =
      .ok "Payment not found or not in PENDING state, no action taken" ∧
    WebhookResult.ok "Payment not found or not in PENDING state, no action taken" ≠
      WebhookResult.ok "Payment already processed, no action taken" := by
  constructor
  · rfl
  · decide

/-- C3: with a nonempty shared webhook secret, a webhook request whose
`X-Chapa-Signature` header is missing, or whose signature differs from the
HMAC digest of the raw body under the secret, fails with HTTP 401 before
the payment store is read or written (`storeQueried = false`, store
unchanged) and before the body is used — no verification, approval or
notification call. The statement is uniform in the HMAC function
`hmacHex`; the constant-time nature of `hmac.compare_digest` is a timing
property outside this embedding, its functional behaviour (equality) is
what is modelled. -/
theorem C3_webhook_unauthorized (hmacHex : String → String → String)
    (secret : String) (key : Nat) (req : WebhookRequest) (store : List Payment)
    (verify : VerifyOutcome) (now : Int)
    (hsecret : secret ≠ "")
    (hbad : req.x_chapa_signature = none ∨
      ∃ s, req.x_chapa_signature = some s ∧ hmacHex secret req.rawBody ≠ s) :
    ((chapa_webhook hmacHex secret key req store verify now).result =
        WebhookResult.unauthorized "X-Chapa-Signature header missing" ∨
      (chapa_webhook hmacHex secret key req store verify now).result =
        WebhookResult.unauthorized "Invalid webhook signature") ∧
    (chapa_webhook hmacHex secret key req store verify now).storeQueried = false ∧
    (chapa_webhook hmacHex secret key req store verify now).store = store ∧
    (chapa_webhook hmacHex secret key req store verify now).verifyCalls = 0 ∧
    (chapa_webhook hmacHex secret key req store verify now).approvalCalls = 0 ∧
    (chapa_webhook hmacHex secret key req store verify now).notifications = 0 := by
  rcases hbad with hnone | ⟨s, hs, hneq⟩
  · simp [chapa_webhook, hnone]
  · have hv : verify_webhook_signature hmacHex secret req.rawBody s = false := by
      unfold verify_webhook_signature
      rw [if_neg hsecret]
      exact decide_eq_false hneq
    simp [chapa_webhook, hs, hv]

/-- Witness for C3: secret `"s"`, a request with the wrong signature `"x"`
(the digest of the body is `"sbody"` for the sample HMAC function), and a
one-payment store. -/
theorem C3_witness :
    ((chapa_webhook (fun k b => k ++ b) "s" 0
        ⟨some "x", "body", some ⟨some "r", some "success"⟩⟩
        [⟨1, 2, 3, 4, 100, PaymentStatus.PENDING, ⟨0, "r"⟩, 0, 0⟩]
        (.resp "success" (some "success")) 7).result =
        WebhookResult.unauthorized "X-Chapa-Signature header missing" ∨
      (chapa_webhook (fun k b => k ++ b) "s" 0
        ⟨some "x", "body", some ⟨some "r", some "success"⟩⟩
        [⟨1, 2, 3, 4, 100, PaymentStatus.PENDING, ⟨0, "r"⟩, 0, 0⟩]
        (.resp "success" (some "success")) 7).result =
        WebhookResult.unauthorized "Invalid webhook signature") ∧
    (chapa_webhook (fun k b => k ++ b) "s" 0
        ⟨some "x", "body", some ⟨some "r", some "success"⟩⟩
        [⟨1, 2, 3, 4, 100, PaymentStatus.PENDING, ⟨0, "r"⟩, 0, 0⟩]
        (.resp "success" (some "success")) 7).storeQueried = false ∧
    (chapa_webhook (fun k b => k ++ b) "s" 0
        ⟨some "x", "body", some ⟨some "r", some "success"⟩⟩
        [⟨1, 2, 3, 4, 100, PaymentStatus.PENDING, ⟨0, "r"⟩, 0, 0⟩]
        (.resp "success" (some "success")) 7).store =
      [⟨1, 2, 3, 4, 100, PaymentStatus.PENDING, ⟨0, "r"⟩, 0, 0⟩] ∧
    (chapa_webhook (fun k b => k ++ b) "s" 0
        ⟨some "x", "body", some ⟨some "r", some "success"⟩⟩
        [⟨1, 2, 3, 4, 100, PaymentStatus.PENDING, ⟨0, "r"⟩, 0, 0⟩]
        (.resp "success" (some "success")) 7).verifyCalls = 0 ∧
    (chapa_webhook (fun k b => k ++ b) "s" 0
        ⟨some "x", "body", some ⟨some "r", some "success"⟩⟩
        [⟨1, 2, 3, 4, 100, PaymentStatus.PENDING, ⟨0, "r"⟩, 0, 0⟩]
        (.resp "success" (some "success")) 7).approvalCalls = 0 ∧
    (chapa_webhook (fun k b => k ++ b) "s" 0
        ⟨some "x", "body", some ⟨some "r", some "success"⟩⟩
        [⟨1, 2, 3, 4, 100, PaymentStatus.PENDING, ⟨0, "r"⟩, 0, 0⟩]
        (.resp "success" (some "success")) 7).notifications = 0 :=
  C3_webhook_unauthorized (fun k b => k ++ b) "s" 0
    ⟨some "x", "body", some ⟨some "r", some "success"⟩⟩
    [⟨1, 2, 3, 4, 100, PaymentStatus.PENDING, ⟨0, "r"⟩, 0, 0⟩]
    (.resp "success" (some "success")) 7
    (by decide) (Or.inr ⟨"x", rfl, by decide⟩)

theorem async_retry_go_all_fail {E A : Type} (inSet : E → Bool) (backoff : ℚ)
    (results : Nat → Except E A) (f : Nat → E)
    (hall : ∀ i, results i = .error (f i) ∧ inSet (f i) = true) :
    ∀ (r idx : Nat) (cur : ℚ),
      async_retry_go inSet backoff results r idx cur =
        (.error (f (idx + r)), (List.range r).map (fun j => cur * backoff ^ j)) := by
  intro r
  induction r with
  | zero =>
    intro idx cur
    simp [async_retry_go, (hall idx).1]
  | succ n ih =>
    intro idx cur
    simp only [async_retry_go, (hall idx).1, (hall idx).2, if_true]
    rw [ih (idx + 1) (cur * backoff)]
    have hidx : idx + 1 + n = idx + (n + 1) := by omega
    have hlist : (List.range (n + 1)).map (fun j => cur * backoff ^ j) =
        cur :: (List.range n).map (fun j => (cur * backoff) * backoff ^ j) := by
      rw [List.range_succ_eq_map, List.map_cons, List.map_map]
      simp only [pow_zero, mul_one]
      have hfun : ((fun j => cur * backoff ^ j) ∘ Nat.succ) =
          (fun j => (cur * backoff) * backoff ^ j) := by
        funext j
        simp only [Function.comp_apply, Nat.succ_eq_add_one, pow_succ]
        ring
      rw [hfun]
    rw [hidx, hlist]

theorem verifyUM_401_eval :
    verify_with_user_management (fun _ => DepResult.httpStatus 401) =
      (.error (Exn.httpExn 401), [1, 2]) := by
  have h := async_retry_go_all_fail retrySetAuth 2
    (fun _ => mapVerifyUM (DepResult.httpStatus 401))
    (fun _ => Exn.httpExn 401) (fun _ => ⟨rfl, rfl⟩) 2 0 1
  calc verify_with_user_management (fun _ => DepResult.httpStatus 401)
      = async_retry_go retrySetAuth 2
          (fun _ => mapVerifyUM (DepResult.httpStatus 401)) 2 0 1 := rfl
    _ = (.error (Exn.httpExn 401),
          (List.range 2).map (fun j => (1 : ℚ) * 2 ^ j)) := h
    _ = (.error (Exn.httpExn 401), [1, 2]) := by
        norm_num [List.range_succ]

theorem verifyUM_403_eval :
    verify_with_user_management (fun _ => DepResult.httpStatus 403) =
      (.error (Exn.httpExn 403), [1, 2]) := by
  have h := async_retry_go_all_fail retrySetAuth 2
    (fun _ => mapVerifyUM (DepResult.httpStatus 403))
    (fun _ => Exn.httpExn 403) (fun _ => ⟨rfl, rfl⟩) 2 0 1
  calc verify_with_user_management (fun _ => DepResult.httpStatus 403)
      = async_retry_go retrySetAuth 2
          (fun _ => mapVerifyUM (DepResult.httpStatus 403)) 2 0 1 := rfl
    _ = (.error (Exn.httpExn 403),
          (List.range 2).map (fun j => (1 : ℚ) * 2 ^ j)) := h
    _ = (.error (Exn.httpExn 403), [1, 2]) := by
        norm_num [List.range_succ]

/-- C9 (amended): the Retry Wrapper retries an operation whose failure is in
the configured exception set, sleeping `delay * backoff ^ j` before retry
`j` (exponential backoff), and re-raises the last failure once the
configured attempt count is exhausted; a failure outside the configured set
propagates immediately with no retry and no sleep. However, at the cited
`verify_with_user_management` site the configured set is
`(httpx.RequestError, HTTPException)` and 401/403 dependency responses are
converted to `HTTPException` before escaping, so they ARE retried (three
attempts, sleeps `[1, 2]`) rather than propagating immediately. -/
theorem C9_retry_wrapper {E A : Type} (maxAttempts : Nat) (delay backoff : ℚ)
    (inSet : E → Bool) (results : Nat → Except E A) :
    (∀ e, 1 ≤ maxAttempts → results 0 = .error e → inSet e = false →
      async_retry maxAttempts delay backoff inSet results = (.error e, [])) ∧
    (∀ f : Nat → E, 1 ≤ maxAttempts →
      (∀ i, results i = .error (f i) ∧ inSet (f i) = true) →
      async_retry maxAttempts delay backoff inSet results =
        (.error (f (maxAttempts - 1)),
          (List.range (maxAttempts - 1)).map (fun j => delay * backoff ^ j))) ∧
    (verify_with_user_management (fun _ => DepResult.httpStatus 401) =
      (.error (Exn.httpExn 401), [1, 2])) ∧
    (verify_with_user_management (fun _ => DepResult.httpStatus 403) =
      (.error (Exn.httpExn 403), [1, 2])) := by
  refine ⟨?_, ?_, ?_, ?_⟩
  · intro e _ h0 hnot
    unfold async_retry
    cases hm : maxAttempts - 1 with
    | zero => simp [async_retry_go, h0]
    | succ n => simp [async_retry_go, h0, hnot]
  · intro f _ hall
    have h := async_retry_go_all_fail inSet backoff results f hall
      (maxAttempts - 1) 0 delay
    unfold async_retry
    simpa using h
  · exact verifyUM_401_eval
  · exact verifyUM_403_eval

/-- C9 counterexample: a dependency that answers 401 on every attempt. The
wrapper at the `verify_with_user_management` site performs sleeps `[1, 2]`
— i.e. a 401 is retried twice more before the failure propagates — which
refutes "a 401/403 response from a dependency is never retried and
propagates immediately" (immediate propagation would mean no sleeps). -/
theorem C9_counterexample :
    verify_with_user_management (fun _ => DepResult.httpStatus 401) =
      (.error (Exn.httpExn 401), [1, 2]) ∧
    ((1 : ℚ) :: [2]) ≠ ([] : List ℚ) := by
  constructor
  · exact verifyUM_401_eval
  · decide

/-- Witness for C9: with two attempts configured, an out-of-set failure
propagates at once with no sleep, and two in-set failures exhaust the
attempts with the single backoff sleep `[1 * 2 ^ 0]`. -/
theorem C9_witness :
    (async_retry 2 1 2 retrySetAuth (fun _ => Except.error Exn.otherExn) =
      ((Except.error Exn.otherExn : Except Exn String), [])) ∧
    (async_retry 2 1 2 retrySetAuth (fun _ => Except.error (Exn.httpExn 500)) =
      ((Except.error (Exn.httpExn 500) : Except Exn String),
        (List.range 1).map (fun j => (1 : ℚ) * 2 ^ j))) :=
  ⟨(C9_retry_wrapper 2 1 2 retrySetAuth
      (fun _ => Except.error Exn.otherExn)).1 Exn.otherExn (by decide) rfl rfl,
   (C9_retry_wrapper 2 1 2 retrySetAuth
      (fun _ => Except.error (Exn.httpExn 500))).2.1
      (fun _ => Exn.httpExn 500) (by decide) (fun _ => ⟨rfl, rfl⟩)⟩
